import Mathlib

/-!
Verification of the Dog-Vision-AI backend core (`backend/model_service.py` and
`backend/image_processor.py`) against its natural-language specification.

The Python code is shallowly embedded:
* `ModelService` is a Lean structure; its mutable fields become explicit state
  passing (`load_model` returns the updated service together with its boolean
  result, mirroring the Python method's in-place mutation plus return value).
* The external Keras model is an oracle function from the input tensor to the
  batch of output vectors, which may fail (`Except`), mirroring the fact that
  `self.model.predict` can raise.
* Python `float` values carried through the pipeline are modelled as `ℚ`.
* Raised exceptions become `Except.error` values carrying the exception class
  and message (`PyExc`), so "raises `RuntimeError`" is an inspectable outcome.
* `np.argmax` returns the first index at which the maximum occurs; this is
  embedded as `indexOf` of the maximum value, which picks the same index.
-/

namespace DogVision

/-- Python exception classes that the embedded code can surface. -/
inductive ExcType where
  | runtimeError
  | valueError
  | indexError
  deriving DecidableEq, Repr

/-- A raised Python exception: its class together with its message text. -/
structure PyExc where
  ty : ExcType
  msg : String
  deriving DecidableEq, Repr

/-- The loaded Keras model, seen abstractly: a function from the input tensor
to the batch of output vectors (`model.predict(image_tensor)`), which may
raise (shape mismatch, numerical error, ...). -/
def ModelFn (α : Type) : Type := α → Except PyExc (List (List ℚ))

/-- The maximum of a Python/NumPy sequence, `none` on the empty one.
Embeds the maximum that `np.argmax` searches for. -/
def listMax : List ℚ → Option ℚ
  | [] => none
  | x :: xs => some (xs.foldl max x)

/-- Embedding of `np.argmax`: the first index at which the maximum value
occurs (NumPy documents first-occurrence tie-breaking), `none` for the empty
sequence (NumPy raises `ValueError` there; the caller turns `none` into that
exception). `indexOf` of the maximum value is exactly the first argmax index. -/
def npArgmax (l : List ℚ) : Option Nat :=
  (listMax l).map fun m => l.indexOf m

/-- Embedding of `ModelService` (`model_service.py`).  `model` is `None` until
a successful load; `is_loaded` mirrors the Python flag of the same name. -/
structure ModelService (α : Type) where
  model_path : String
  model : Option (ModelFn α)
  dog_breeds : List String
  is_loaded : Bool

/-- The hardcoded breed list returned by `ModelService._get_dog_breeds`,
transcribed verbatim (including its duplicated entries). -/
def getDogBreeds : List String :=
  ["affenpinscher", "afghan_hound", "african_hunting_dog", "airedale",
   "american_staffordshire_terrier", "appenzeller", "australian_terrier",
   "basenji", "basset", "beagle", "bedlington_terrier", "bernese_mountain_dog",
   "black-and-tan_coonhound", "blenheim_spaniel", "bloodhound", "bluetick",
   "border_collie", "border_terrier", "borzoi", "boston_bull",
   "bouvier_des_flandres", "boxer", "brabancon_griffon", "briard",
   "brittany_spaniel", "bull_mastiff", "cairn", "cardigan",
   "chesapeake_bay_retriever", "chihuahua", "chow", "clumber",
   "cocker_spaniel", "collie", "curly-coated_retriever", "dandie_dinmont",
   "dhole", "dingo", "doberman", "english_foxhound",
   "english_setter", "english_springer", "entlebucher", "eskimo_dog",
   "flat-coated_retriever", "french_bulldog", "german_shepherd",
   "german_short-haired_pointer", "giant_schnauzer", "golden_retriever",
   "gordon_setter", "great_dane", "great_pyrenees", "greater_swiss_mountain_dog",
   "groenendael", "ibizan_hound", "irish_setter", "irish_terrier",
   "irish_water_spaniel", "irish_wolfhound", "italian_greyhound", "japanese_spaniel",
   "keeshond", "kelpie", "kerry_blue_terrier", "komondor",
   "kuvasz", "labrador_retriever", "lakeland_terrier", "leonberg",
   "lhasa", "malamute", "malinois", "maltese_dog",
   "mexican_hairless", "miniature_pinscher", "miniature_poodle", "miniature_schnauzer",
   "newfoundland", "norfolk_terrier", "norwegian_elkhound", "norwich_terrier",
   "old_english_sheepdog", "otterhound", "papillon", "pekinese",
   "pembroke", "pomeranian", "pug", "redbone",
   "rhodesian_ridgeback", "rottweiler", "saint_bernard", "saluki",
   "samoyed", "schipperke", "scotch_terrier", "scottish_deerhound",
   "sealyham_terrier", "shetland_sheepdog", "shih-tzu", "siberian_husky",
   "silky_terrier", "soft-coated_wheaten_terrier", "staffordshire_bullterrier",
   "standard_poodle", "standard_schnauzer", "sussex_spaniel", "tibetan_mastiff",
   "tibetan_terrier", "toy_poodle", "toy_terrier", "vizsla",
   "walker_hound", "weimaraner", "welsh_springer_spaniel", "west_highland_white_terrier",
   "whippet", "wire-haired_fox_terrier", "yorkshire_terrier", "basenji",
   "bearded_collie", "belgian_malinois", "belgian_sheepdog", "belgian_tervuren",
   "bernese_mountain_dog", "bichon_frise", "black_and_tan_coonhound", "bloodhound",
   "blue_heeler", "border_collie", "borzoi", "boston_terrier",
   "bouvier_des_flandres", "boxer", "briard", "brittany",
   "bull_terrier", "bulldog", "bullmastiff", "cairn_terrier"]

/-- Embedding of `ModelService.__init__`: stores the path, leaves the model
unset, installs the hardcoded breed list, marks the service not loaded. -/
def ModelService.new (α : Type) (model_path : String) : ModelService α :=
  { model_path := model_path
    model := none
    dog_breeds := getDogBreeds
    is_loaded := false }

/-- Embedding of `ModelService.load_model`.  The file system and the Keras
deserializer are passed in explicitly: `fsExists` is `os.path.exists(path)`,
`loader` is the outcome of `tf.keras.models.load_model(path)`.  A missing file
returns `False` without touching any state; a deserialization exception is
caught, sets `is_loaded = False` (leaving `model` as it was, since the failed
call never assigned it) and returns `False`; success installs the model and
sets the flag. -/
def ModelService.load_model (svc : ModelService α) (fsExists : Bool)
    (loader : Except PyExc (ModelFn α)) : ModelService α × Bool :=
  if fsExists = false then
    (svc, false)
  else
    match loader with
    | Except.ok m => ({ svc with model := some m, is_loaded := true }, true)
    | Except.error _ => ({ svc with is_loaded := false }, false)

/-- The exception raised by `predict` when the service is not loaded. -/
def notLoadedExc : PyExc :=
  ⟨ExcType.runtimeError, "Model not loaded. Call load_model() first."⟩

/-- The body of `ModelService.predict`'s `try` block: run the model, take the
first row of the output batch (`predictions[0]`), compute `np.argmax`, index
the confidence and resolve the breed name (with the synthesized
`unknown_breed_{i}` fallback when the index is outside the vocabulary). -/
def tryPredict (m : ModelFn α) (breeds : List String) (x : α) :
    Except PyExc (String × ℚ) :=
  match m x with
  | Except.error e => Except.error e
  | Except.ok predictions =>
    match predictions with
    | [] => Except.error ⟨ExcType.indexError, "index 0 is out of bounds for axis 0 with size 0"⟩
    | p0 :: _ =>
      match npArgmax p0 with
      | none => Except.error ⟨ExcType.valueError, "attempt to get argmax of an empty sequence"⟩
      | some predicted_class_index =>
        let confidence : ℚ := p0.getD predicted_class_index 0
        let predicted_breed : String :=
          if predicted_class_index < breeds.length then
            breeds.getD predicted_class_index ""
          else
            "unknown_breed_" ++ toString predicted_class_index
        Except.ok (predicted_breed, confidence)

/-- Embedding of `ModelService.predict`: the not-loaded guard raises
`RuntimeError`, and every exception escaping the `try` block is re-raised as
`RuntimeError("Error during prediction: " + str(e))`. -/
def ModelService.predict (svc : ModelService α) (x : α) : Except PyExc (String × ℚ) :=
  match svc.model, svc.is_loaded with
  | some m, true =>
    match tryPredict m svc.dog_breeds x with
    | Except.ok r => Except.ok r
    | Except.error e =>
      Except.error ⟨ExcType.runtimeError, "Error during prediction: " ++ e.msg⟩
  | _, _ => Except.error notLoadedExc

/-- Embedding of the dictionary returned by `ModelService.get_health_status`. -/
structure HealthStatus where
  model_loaded : Bool
  model_path : String
  num_classes : Nat
  status : String
  deriving DecidableEq, Repr

/-- Embedding of `ModelService.get_health_status`: a pure read of the current
state. -/
def ModelService.get_health_status (svc : ModelService α) : HealthStatus :=
  { model_loaded := svc.is_loaded
    model_path := svc.model_path
    num_classes := svc.dog_breeds.length
    status := if svc.is_loaded then "healthy" else "model_not_loaded" }

/-- An operation performed on the service after construction: a `load_model`
call (with its environment) or a `predict` call. -/
inductive Op (α : Type) where
  | load (fsExists : Bool) (loader : Except PyExc (ModelFn α))
  | predictCall (x : α)

/-- State transition of the service under one operation.  `predict` never
mutates the service, so only `load` changes the state. -/
def stepOp (svc : ModelService α) : Op α → ModelService α
  | Op.load fsExists loader => (svc.load_model fsExists loader).1
  | Op.predictCall _ => svc

/-- An operation is a `load_model` call whose file exists but whose
deserialization raises.  This is the only operation that can take a loaded
service back to `is_loaded = false`. -/
def failingDeserializeLoad : Op α → Bool
  | Op.load true (Except.error _) => true
  | _ => false

/-! Embedding of `image_processor.py`.  PIL and TensorFlow are external
libraries; the PIL decoder is passed in as an oracle, while the documented
pixel-level semantics of `Image.convert("RGB")`, `np.array`,
`tf.image.convert_image_dtype` and `tf.image.resize` (bilinear,
half-pixel-centers, the TF2 default) are embedded concretely, since the spec's
claims are about their output shape and value range. -/

/-- PIL color modes relevant to the spec (RGB, grayscale, RGBA, palette). -/
inductive PILMode where
  | RGB
  | L
  | RGBA
  | P
  deriving DecidableEq, Repr

/-- Channel count of each PIL mode. -/
def PILMode.channels : PILMode → Nat
  | PILMode.RGB => 3
  | PILMode.L => 1
  | PILMode.RGBA => 4
  | PILMode.P => 1

/-- A decoded PIL image: mode, dimensions, the pixel grid (rows of pixels,
each pixel a list of 8-bit channel values), and, for palette images, the
palette (index to RGB triple). -/
structure PILImage where
  mode : PILMode
  height : Nat
  width : Nat
  data : List (List (List Nat))
  palette : List (List Nat)
  deriving DecidableEq, Repr

/-- Well-formedness of a decoded PIL image: positive dimensions, the grid has
the declared shape, each pixel has the mode's channel count with 8-bit values,
palette entries are 8-bit RGB triples, and palette pixels index into the
palette. -/
def PILImage.WF (img : PILImage) : Prop :=
  0 < img.height ∧ 0 < img.width ∧
  img.data.length = img.height ∧
  (∀ row ∈ img.data, row.length = img.width ∧
    ∀ px ∈ row, px.length = img.mode.channels ∧ ∀ v ∈ px, v ≤ 255) ∧
  (∀ entry ∈ img.palette, entry.length = 3 ∧ ∀ v ∈ entry, v ≤ 255) ∧
  (img.mode = PILMode.P → ∀ row ∈ img.data, ∀ px ∈ row, ∀ v ∈ px, v < img.palette.length)

/-- The RGB value of pixel `(i, j)` after `Image.convert("RGB")`: grayscale
replicates the single channel, RGBA discards the alpha channel, palette
images look the index up in the palette. -/
def PILImage.pixelRGB (img : PILImage) (i j : Nat) : List Nat :=
  let px := (img.data.getD i []).getD j []
  match img.mode with
  | PILMode.RGB => px
  | PILMode.L => [px.getD 0 0, px.getD 0 0, px.getD 0 0]
  | PILMode.RGBA => px.take 3
  | PILMode.P => img.palette.getD (px.getD 0 0) [0, 0, 0]

/-- Embedding of `image.convert("RGB")`: a new image in RGB mode whose pixel
grid applies the per-mode conversion rule. -/
def PILImage.convert_RGB (img : PILImage) : PILImage :=
  { mode := PILMode.RGB
    height := img.height
    width := img.width
    data := (List.range img.height).map fun i =>
      (List.range img.width).map fun j => img.pixelRGB i j
    palette := [] }

/-- All channel values of a pixel grid are 8-bit. -/
def allLE255 (arr : List (List (List Nat))) : Prop :=
  ∀ row ∈ arr, ∀ px ∈ row, ∀ v ∈ px, v ≤ 255

/-- Embedding of `tf.image.convert_image_dtype(·, tf.float32)` on a uint8
tensor: every channel value is scaled linearly from 0–255 to 0–1. -/
def convertImageDtype (arr : List (List (List Nat))) : List (List (List ℚ)) :=
  arr.map fun row => row.map fun px => px.map fun (v : Nat) => (v : ℚ) / 255

/-- Value of a rank-3 tensor at `(i, j, c)`, 0 outside the stored extent. -/
def tensorAt (t : List (List (List ℚ))) (i j c : Nat) : ℚ :=
  ((t.getD i []).getD j []).getD c 0

/-- The target spatial size, `IMG_SIZE = 224` in `image_processor.py`. -/
def IMG_SIZE : Nat := 224

/-- The source coordinate sampled for output index `outIdx`, with TF2's
half-pixel-centers scaling: `(out + 0.5) * inSize / outSize - 0.5`. -/
def halfPixelSrc (outIdx inSize outSize : Nat) : ℚ :=
  ((outIdx : ℚ) + 1 / 2) * (inSize : ℚ) / (outSize : ℚ) - 1 / 2

/-- TF's `compute_lerp`: `top_left + (top_right - top_left) * lerp`. -/
def lerpQ (a b t : ℚ) : ℚ := a + (b - a) * t

/-- One output sample of TF's bilinear resize kernel: the four neighbours
(lower index is the clamped floor of the source coordinate, upper index the
clamped ceiling) combined by the two lerp fractions `src - ⌊src⌋`. -/
def bilinearAt (t : List (List (List ℚ))) (inH inW outH outW i j c : Nat) : ℚ :=
  lerpQ
    (lerpQ (tensorAt t (⌊halfPixelSrc i inH outH⌋).toNat (⌊halfPixelSrc j inW outW⌋).toNat c)
      (tensorAt t (⌊halfPixelSrc i inH outH⌋).toNat
        (min (inW - 1) (⌈halfPixelSrc j inW outW⌉).toNat) c)
      (halfPixelSrc j inW outW - (⌊halfPixelSrc j inW outW⌋ : ℚ)))
    (lerpQ (tensorAt t (min (inH - 1) (⌈halfPixelSrc i inH outH⌉).toNat)
        (⌊halfPixelSrc j inW outW⌋).toNat c)
      (tensorAt t (min (inH - 1) (⌈halfPixelSrc i inH outH⌉).toNat)
        (min (inW - 1) (⌈halfPixelSrc j inW outW⌉).toNat) c)
      (halfPixelSrc j inW outW - (⌊halfPixelSrc j inW outW⌋ : ℚ)))
    (halfPixelSrc i inH outH - (⌊halfPixelSrc i inH outH⌋ : ℚ))

/-- Embedding of `tf.image.resize(·, [outH, outW])` (bilinear, the default)
on a 3-channel tensor with spatial extent `inH × inW`. -/
def tfResize (t : List (List (List ℚ))) (inH inW outH outW : Nat) :
    List (List (List ℚ)) :=
  (List.range outH).map fun i =>
    (List.range outW).map fun j =>
      (List.range 3).map fun c => bilinearAt t inH inW outH outW i j c

/-- Embedding of `process_image_from_bytes`: decode via PIL (the decoder is
the oracle `pilOpen`), convert to RGB when the mode is not already RGB, take
the numpy pixel grid, scale to [0,1] floats, and bilinearly resize to
`IMG_SIZE × IMG_SIZE`. -/
def process_image_from_bytes (pilOpen : List Nat → Except PyExc PILImage)
    (image_bytes : List Nat) : Except PyExc (List (List (List ℚ))) :=
  match pilOpen image_bytes with
  | Except.error e => Except.error e
  | Except.ok image0 =>
    let image := if image0.mode ≠ PILMode.RGB then image0.convert_RGB else image0
    let image_array := image.data
    let image_tensor := convertImageDtype image_array
    Except.ok (tfResize image_tensor image_tensor.length
      ((image_tensor.getD 0 []).length) IMG_SIZE IMG_SIZE)

/-- Embedding of `validate_image_format`: open the bytes with PIL and run
`verify()`, returning `False` instead of propagating any exception.  `pilOpen`
and `verify` are the PIL oracles. -/
def validate_image_format (pilOpen : List Nat → Except PyExc PILImage)
    (verify : PILImage → Except PyExc Unit) (image_bytes : List Nat) : Bool :=
  match pilOpen image_bytes with
  | Except.error _ => false
  | Except.ok image =>
    match verify image with
    | Except.error _ => false
    | Except.ok _ => true

/-! Concrete fixtures used to instantiate the theorems below. -/

/-- Equality of `Except` results is decidable when both components are. -/
instance {ε σ : Type} [DecidableEq ε] [DecidableEq σ] : DecidableEq (Except ε σ) := fun
  | Except.ok a, Except.ok b =>
    if h : a = b then isTrue (by rw [h]) else isFalse (fun hh => by cases hh; exact h rfl)
  | Except.ok _, Except.error _ => isFalse (fun hh => by cases hh)
  | Except.error _, Except.ok _ => isFalse (fun hh => by cases hh)
  | Except.error a, Except.error b =>
    if h : a = b then isTrue (by rw [h]) else isFalse (fun hh => by cases hh; exact h rfl)

/-- A stub model that always answers the same single-class batch. -/
def stubModel : ModelFn Unit := fun _ => Except.ok [[1]]

/-- A deserialization failure raised by the Keras loader. -/
def deserializeExc : PyExc := ⟨ExcType.valueError, "not a valid Keras model file"⟩

/-- The stub model of the spec's scenario: output vector `[0.1, 0.7, 0.2]`. -/
def mScenario : ModelFn Unit := fun _ => Except.ok [[1 / 10, 7 / 10, 2 / 10]]

/-- The spec's stub-model scenario: output vector `[0.1, 0.7, 0.2]`,
vocabulary `["a", "b", "c"]`, service loaded. -/
def svcScenario : ModelService Unit :=
  { model_path := "stub"
    model := some mScenario
    dog_breeds := ["a", "b", "c"]
    is_loaded := true }

/-- The spec's out-of-range scenario: argmax index 5 against a 3-entry
vocabulary. -/
def svcBigIdx : ModelService Unit :=
  { model_path := "stub"
    model := some fun _ => Except.ok [[0, 0, 0, 0, 0, 1]]
    dog_breeds := ["a", "b", "c"]
    is_loaded := true }

/-- A service that has gone through a successful `load_model` call. -/
def svcLoaded : ModelService Unit :=
  ((ModelService.new Unit "dog_model.keras").load_model true (Except.ok stubModel)).1

/-- A probability vector whose argmax is `n`: `n` zeros followed by a one. -/
def oneHot (n : Nat) : List ℚ := List.replicate n 0 ++ [1]

/-- A loaded service (with the repository's vocabulary) whose model always
answers the one-hot vector at index `n`. -/
def svcOneHot (n : Nat) : ModelService Unit :=
  { model_path := "dog_model.keras"
    model := some fun _ => Except.ok [oneHot n]
    dog_breeds := getDogBreeds
    is_loaded := true }

/-- A loaded service whose model's output vector contains a value above 1. -/
def svcConf2 : ModelService Unit :=
  { model_path := "dog_model.keras"
    model := some fun _ => Except.ok [[2]]
    dog_breeds := getDogBreeds
    is_loaded := true }

/-- A decoded 1×1 solid-red RGB image. -/
def imgRed : PILImage :=
  { mode := PILMode.RGB
    height := 1
    width := 1
    data := [[[255, 0, 0]]]
    palette := [] }

/-- A stub PIL decoder for the `validate_image_format` oracle: accepts bytes
with a JPEG or PNG magic number, rejects everything else (in particular the
empty byte sequence). -/
def pilOpenStub (bytes : List Nat) : Except PyExc PILImage :=
  if bytes.take 3 = [0xFF, 0xD8, 0xFF] ∨
      bytes.take 8 = [0x89, 0x50, 0x4E, 0x47, 0x0D, 0x0A, 0x1A, 0x0A] then
    Except.ok imgRed
  else
    Except.error ⟨ExcType.valueError, "cannot identify image file"⟩

/-- A stub `verify()` oracle that accepts every decoded image. -/
def verifyOk : PILImage → Except PyExc Unit := fun _ => Except.ok ()

/-- A well-formed JPEG payload for the stub decoder. -/
def jpegBytes : List Nat := [0xFF, 0xD8, 0xFF, 0xE0, 0x00, 0x10]

end DogVision
namespace DogVision

theorem foldl_max_spec (xs : List ℚ) (a : ℚ) :
    (xs.foldl max a = a ∨ xs.foldl max a ∈ xs) ∧
    a ≤ xs.foldl max a ∧ ∀ y ∈ xs, y ≤ xs.foldl max a := by
  induction xs generalizing a with
  | nil => simp
  | cons x xs ih =>
    simp only [List.foldl_cons]
    have h := ih (max a x)
    refine ⟨?_, ?_, ?_⟩
    · rcases h.1 with h1 | h1
      · rcases max_choice a x with hm | hm
        · exact Or.inl (h1.trans hm)
        · exact Or.inr (by rw [h1, hm]; exact List.mem_cons_self _ _)
      · exact Or.inr (List.mem_cons_of_mem _ h1)
    · exact le_trans (le_max_left a x) h.2.1
    · intro y hy
      rcases List.mem_cons.mp hy with rfl | hy
      · exact le_trans (le_max_right a y) h.2.1
      · exact h.2.2 y hy

theorem listMax_spec {l : List ℚ} {m : ℚ} (h : listMax l = some m) :
    m ∈ l ∧ ∀ y ∈ l, y ≤ m := by
  cases l with
  | nil => simp [listMax] at h
  | cons x xs =>
    have hm : xs.foldl max x = m := by simpa [listMax] using h
    subst hm
    have h2 := foldl_max_spec xs x
    refine ⟨?_, ?_⟩
    · rcases h2.1 with h1 | h1
      · rw [h1]; exact List.mem_cons_self _ _
      · exact List.mem_cons_of_mem _ h1
    · intro y hy
      rcases List.mem_cons.mp hy with rfl | hy
      · exact h2.2.1
      · exact h2.2.2 y hy

theorem listMax_isSome {l : List ℚ} (h : l ≠ []) : ∃ m, listMax l = some m := by
  cases l with
  | nil => exact absurd rfl h
  | cons x xs => exact ⟨xs.foldl max x, rfl⟩

theorem npArgmax_isSome {l : List ℚ} (h : l ≠ []) : ∃ idx, npArgmax l = some idx := by
  obtain ⟨m, hm⟩ := listMax_isSome h
  exact ⟨l.indexOf m, by simp [npArgmax, hm]⟩

theorem npArgmax_spec {l : List ℚ} {idx : Nat} (h : npArgmax l = some idx) :
    idx < l.length ∧ l.getD idx 0 ∈ l ∧ (∀ y ∈ l, y ≤ l.getD idx 0) ∧
    listMax l = some (l.getD idx 0) := by
  unfold npArgmax at h
  cases hmax : listMax l with
  | none => rw [hmax] at h; simp at h
  | some m =>
    rw [hmax] at h
    have h' : l.indexOf m = idx := by simpa using h
    have hspec := listMax_spec hmax
    have hlt : l.indexOf m < l.length := List.indexOf_lt_length.mpr hspec.1
    have hget : l.getD (l.indexOf m) 0 = m := by
      rw [List.getD_eq_getElem l 0 hlt]
      exact List.getElem_indexOf hlt
    subst h'
    exact ⟨hlt, by rw [hget]; exact hspec.1, by rw [hget]; exact hspec.2, by rw [hget]⟩

theorem tryPredict_ok {α : Type} {m : ModelFn α} (breeds : List String) {x : α}
    {v : List ℚ} {rest : List (List ℚ)}
    (hout : m x = Except.ok (v :: rest)) (hv : v ≠ []) :
    ∃ idx, npArgmax v = some idx ∧
      tryPredict m breeds x = Except.ok
        (if idx < breeds.length then breeds.getD idx ""
         else "unknown_breed_" ++ toString idx, v.getD idx 0) := by
  obtain ⟨idx, hidx⟩ := npArgmax_isSome hv
  exact ⟨idx, hidx, by simp [tryPredict, hout, hidx]⟩

theorem predict_loaded {α : Type} (svc : ModelService α) {m : ModelFn α}
    (hm : svc.model = some m) (hl : svc.is_loaded = true) (x : α) :
    svc.predict x =
      match tryPredict m svc.dog_breeds x with
      | Except.ok r => Except.ok r
      | Except.error e =>
        Except.error ⟨ExcType.runtimeError, "Error during prediction: " ++ e.msg⟩ := by
  simp only [ModelService.predict, hm, hl]

theorem unknown_breed_head (n : Nat) :
    ("unknown_breed_" ++ toString n).data.head? = some 'u' := by
  rw [String.data_append]; rfl

set_option maxRecDepth 4000 in
theorem unknown_breed_not_mem (n : Nat) :
    ("unknown_breed_" ++ toString n) ∉ getDogBreeds := by
  intro hmem
  have hhead : ∀ s ∈ getDogBreeds, ¬ s.data.head? = some 'u' := by decide
  exact hhead _ hmem (unknown_breed_head n)

theorem toString_data_suffix (n : Nat) :
    (toString n).data <:+ ("unknown_breed_" ++ toString n).data := by
  rw [String.data_append]; exact List.suffix_append _ _

end DogVision
namespace DogVision

/-- C1: on a loaded engine whose model returns output vector `v`, `predict`
returns the maximum of `v` as confidence and resolves the label at the argmax
index: the vocabulary entry when in range, otherwise (without raising) the
synthesized `unknown_breed_{i}` placeholder, which contains the raw index and
matches no entry of the repository's vocabulary; and in the spec's scenario
(output `[0.1, 0.7, 0.2]`, vocabulary `["a","b","c"]`) it returns
`("b", 0.7)`. -/
theorem C1_predict_argmax_label {α : Type} (svc : ModelService α) (m : ModelFn α)
    (x : α) (v : List ℚ) (rest : List (List ℚ))
    (hload : svc.is_loaded = true) (hm : svc.model = some m)
    (hout : m x = Except.ok (v :: rest)) (hv : v ≠ []) :
    (∃ idx label,
      npArgmax v = some idx ∧
      svc.predict x = Except.ok (label, v.getD idx 0) ∧
      listMax v = some (v.getD idx 0) ∧
      (idx < svc.dog_breeds.length → label = svc.dog_breeds.getD idx "") ∧
      (svc.dog_breeds.length ≤ idx →
        label = "unknown_breed_" ++ toString idx ∧
        (toString idx).data <:+ label.data ∧
        (svc.dog_breeds = getDogBreeds → label ∉ svc.dog_breeds))) ∧
    svcScenario.predict () = Except.ok ("b", 7 / 10) := by
  constructor
  · obtain ⟨idx, hidx, htp⟩ := tryPredict_ok svc.dog_breeds hout hv
    refine ⟨idx,
      if idx < svc.dog_breeds.length then svc.dog_breeds.getD idx ""
      else "unknown_breed_" ++ toString idx,
      hidx, ?_, (npArgmax_spec hidx).2.2.2, ?_, ?_⟩
    · rw [predict_loaded svc hm hload, htp]
    · intro hlt; rw [if_pos hlt]
    · intro hge
      have hnlt : ¬ idx < svc.dog_breeds.length := not_lt.mpr hge
      rw [if_neg hnlt]
      exact ⟨rfl, toString_data_suffix idx,
        fun hvocab => by rw [hvocab]; exact unknown_breed_not_mem idx⟩
  · simp [ModelService.predict, svcScenario, mScenario, tryPredict, npArgmax, listMax]
    norm_num

/-- C1 witness: the theorem instantiated at the spec's concrete scenario. -/
theorem C1_predict_argmax_label_witness :
    svcScenario.is_loaded = true ∧ svcScenario.model = some mScenario ∧
    mScenario () = Except.ok [[1 / 10, 7 / 10, 2 / 10]] ∧
    ([(1 : ℚ) / 10, 7 / 10, 2 / 10] ≠ []) ∧
    ((∃ idx label,
      npArgmax [(1 : ℚ) / 10, 7 / 10, 2 / 10] = some idx ∧
      svcScenario.predict () = Except.ok (label, [(1 : ℚ) / 10, 7 / 10, 2 / 10].getD idx 0) ∧
      listMax [(1 : ℚ) / 10, 7 / 10, 2 / 10] = some ([(1 : ℚ) / 10, 7 / 10, 2 / 10].getD idx 0) ∧
      (idx < svcScenario.dog_breeds.length → label = svcScenario.dog_breeds.getD idx "") ∧
      (svcScenario.dog_breeds.length ≤ idx →
        label = "unknown_breed_" ++ toString idx ∧
        (toString idx).data <:+ label.data ∧
        (svcScenario.dog_breeds = getDogBreeds → label ∉ svcScenario.dog_breeds))) ∧
    svcScenario.predict () = Except.ok ("b", 7 / 10)) :=
  ⟨rfl, rfl, rfl, by simp,
    C1_predict_argmax_label svcScenario mScenario () _ _ rfl rfl rfl (by simp)⟩

end DogVision
namespace DogVision

/-- C5: whenever `is_loaded` is false, `predict` fails with the not-loaded
`RuntimeError` and never returns a result; the failure is independent of the
input and of whatever sits in the `model` field, so no model computation is
involved. -/
theorem C5_predict_requires_loaded {α : Type} (svc : ModelService α) (x : α)
    (hunloaded : svc.is_loaded = false) :
    svc.predict x = Except.error notLoadedExc ∧
    notLoadedExc = ⟨ExcType.runtimeError, "Model not loaded. Call load_model() first."⟩ ∧
    ∀ (x' : α) (mo : Option (ModelFn α)),
      ModelService.predict { svc with model := mo } x' = Except.error notLoadedExc := by
  have key : ∀ (mo : Option (ModelFn α)) (x' : α),
      ModelService.predict { svc with model := mo } x' = Except.error notLoadedExc := by
    intro mo x'
    cases mo <;> simp [ModelService.predict, hunloaded]
  exact ⟨key svc.model x, rfl, fun x' mo => key mo x'⟩

/-- C5 witness: a freshly constructed service is unloaded and `predict`
fails on it with the not-loaded error. -/
theorem C5_predict_requires_loaded_witness :
    (ModelService.new Unit "dog_model.keras").is_loaded = false ∧
    ((ModelService.new Unit "dog_model.keras").predict () = Except.error notLoadedExc ∧
      notLoadedExc = ⟨ExcType.runtimeError, "Model not loaded. Call load_model() first."⟩ ∧
      ∀ (x' : Unit) (mo : Option (ModelFn Unit)),
        ModelService.predict { ModelService.new Unit "dog_model.keras" with model := mo } x'
          = Except.error notLoadedExc) :=
  ⟨rfl, C5_predict_requires_loaded (ModelService.new Unit "dog_model.keras") () rfl⟩

/-- C10: every failure of `predict` is a `RuntimeError`: the not-loaded
failure carries the fixed not-loaded message and the wrapped computation
failure carries the original cause's message behind the
`"Error during prediction: "` prefix, so the two kinds differ only in
message text, never in exception type. -/
theorem C10_predict_failures_single_type {α : Type} (svc : ModelService α) (x : α)
    (e : PyExc) (h : svc.predict x = Except.error e) :
    e.ty = ExcType.runtimeError ∧
    (e.msg = "Model not loaded. Call load_model() first." ∨
      ∃ cause, e.msg = "Error during prediction: " ++ cause) := by
  obtain ⟨ty, msg⟩ := e
  cases hml : svc.model with
  | none =>
    simp [ModelService.predict, hml, notLoadedExc] at h
    exact ⟨h.1.symm, Or.inl h.2.symm⟩
  | some m =>
    cases hld : svc.is_loaded with
    | false =>
      simp [ModelService.predict, hml, hld, notLoadedExc] at h
      exact ⟨h.1.symm, Or.inl h.2.symm⟩
    | true =>
      rw [predict_loaded svc hml hld] at h
      cases htp : tryPredict m svc.dog_breeds x with
      | ok r => rw [htp] at h; simp at h
      | error e' =>
        rw [htp] at h
        simp at h
        exact ⟨h.1.symm, Or.inr ⟨e'.msg, h.2.symm⟩⟩

/-- C10 witness: the theorem applied to the not-loaded failure of a fresh
service. -/
theorem C10_predict_failures_single_type_witness :
    (ModelService.new Unit "dog_model.keras").predict () = Except.error notLoadedExc ∧
    (notLoadedExc.ty = ExcType.runtimeError ∧
      (notLoadedExc.msg = "Model not loaded. Call load_model() first." ∨
        ∃ cause, notLoadedExc.msg = "Error during prediction: " ++ cause)) :=
  ⟨rfl, C10_predict_failures_single_type (ModelService.new Unit "dog_model.keras") ()
    notLoadedExc rfl⟩

/-- C8 (amended): `predict` performs no clamping, so the confidence — the
entry of the model's output vector at the argmax index — lies in [0,1]
whenever every element of the output vector does (as for a probability
vector); the original universal claim fails for output vectors with entries
above 1 (see the counterexample). -/
theorem C8_confidence_unit_interval {α : Type} (svc : ModelService α) (m : ModelFn α)
    (x : α) (v : List ℚ) (rest : List (List ℚ))
    (hload : svc.is_loaded = true) (hm : svc.model = some m)
    (hout : m x = Except.ok (v :: rest)) (hv : v ≠ [])
    (hprob : ∀ y ∈ v, 0 ≤ y ∧ y ≤ 1) :
    ∃ label conf, svc.predict x = Except.ok (label, conf) ∧ 0 ≤ conf ∧ conf ≤ 1 := by
  obtain ⟨idx, hidx, htp⟩ := tryPredict_ok svc.dog_breeds hout hv
  have hs := npArgmax_spec hidx
  exact ⟨_, _, by rw [predict_loaded svc hm hload, htp],
    (hprob _ hs.2.1).1, (hprob _ hs.2.1).2⟩

/-- C8 witness: the theorem applied to the spec's probability-vector
scenario. -/
theorem C8_confidence_unit_interval_witness :
    svcScenario.is_loaded = true ∧ svcScenario.model = some mScenario ∧
    mScenario () = Except.ok [[1 / 10, 7 / 10, 2 / 10]] ∧
    ([(1 : ℚ) / 10, 7 / 10, 2 / 10] ≠ []) ∧
    (∀ y ∈ [(1 : ℚ) / 10, 7 / 10, 2 / 10], 0 ≤ y ∧ y ≤ 1) ∧
    ∃ label conf, svcScenario.predict () = Except.ok (label, conf) ∧ 0 ≤ conf ∧ conf ≤ 1 :=
  ⟨rfl, rfl, rfl, by simp, by intro y hy; fin_cases hy <;> norm_num,
    C8_confidence_unit_interval svcScenario mScenario () _ _ rfl rfl rfl (by simp)
      (by intro y hy; fin_cases hy <;> norm_num)⟩

set_option maxRecDepth 8000 in
/-- C8 counterexample: a loaded model whose output vector is `[2]` makes
`predict` return confidence 2, outside [0,1] — the claim's universal
quantification over output vectors fails on the code. -/
theorem C8_confidence_counterexample :
    svcConf2.predict () = Except.ok ("affenpinscher", 2) ∧ ¬ ((2 : ℚ) ≤ 1) := by
  refine ⟨by decide, by norm_num⟩

end DogVision
namespace DogVision

theorem foldl_max_acc (l : List ℚ) (a b : ℚ) :
    l.foldl max (max a b) = max a (l.foldl max b) := by
  induction l generalizing b with
  | nil => rfl
  | cons x xs ih =>
    simp only [List.foldl_cons]
    rw [max_assoc]
    exact ih (max b x)

theorem listMax_cons_zero {l : List ℚ} {m : ℚ} (hm : listMax l = some m) (h0 : 0 ≤ m) :
    listMax (0 :: l) = some m := by
  cases l with
  | nil => simp [listMax] at hm
  | cons x xs =>
    have hx : xs.foldl max x = m := by simpa [listMax] using hm
    show some ((x :: xs).foldl max 0) = some m
    simp only [List.foldl_cons]
    rw [foldl_max_acc xs 0 x, hx, max_eq_right h0]

theorem oneHot_succ (k : Nat) : oneHot (k + 1) = 0 :: oneHot k := by
  simp [oneHot, List.replicate_succ]

theorem listMax_oneHot (n : Nat) : listMax (oneHot n) = some 1 := by
  induction n with
  | zero => rfl
  | succ k ih =>
    rw [oneHot_succ]
    exact listMax_cons_zero ih (by norm_num)

theorem indexOf_oneHot (n : Nat) : (oneHot n).indexOf 1 = n := by
  induction n with
  | zero => rfl
  | succ k ih =>
    rw [oneHot_succ, List.indexOf_cons_ne _ (by norm_num : (0 : ℚ) ≠ 1), ih]

theorem npArgmax_oneHot (n : Nat) : npArgmax (oneHot n) = some n := by
  simp [npArgmax, listMax_oneHot, indexOf_oneHot]

theorem oneHot_getD (n : Nat) : (oneHot n).getD n 0 = 1 := by
  induction n with
  | zero => rfl
  | succ k ih =>
    rw [oneHot_succ]
    simpa using ih

theorem getDogBreeds_length : getDogBreeds.length = 141 := rfl

theorem svcOneHot_predict (n : Nat) (hn : n < 141) :
    (svcOneHot n).predict () = Except.ok (getDogBreeds.getD n "", 1) := by
  have htp : tryPredict (fun _ => Except.ok [oneHot n]) getDogBreeds ()
      = Except.ok (getDogBreeds.getD n "", 1) := by
    simp [tryPredict, npArgmax_oneHot, getDogBreeds_length, hn]
    rw [← List.getD_eq_getElem?_getD]
    exact oneHot_getD n
  rw [predict_loaded (svcOneHot n) rfl rfl (),
    show (svcOneHot n).dog_breeds = getDogBreeds from rfl, htp]

end DogVision
namespace DogVision

set_option maxRecDepth 8000 in
/-- C9: the hardcoded vocabulary has 141 entries (not 120), with "basenji"
at the two distinct in-range indices 7 and 120, so `get_health_status`
reports a vocabulary size different from 120 and `predict`'s index-to-label
lookup is not injective: one-hot model outputs with argmax 7 and argmax 120
both yield the label "basenji". -/
theorem C9_vocabulary_duplicates :
    getDogBreeds.length = 141 ∧ getDogBreeds.length ≠ 120 ∧
    (7 : Nat) ≠ 120 ∧ 7 < getDogBreeds.length ∧ 120 < getDogBreeds.length ∧
    getDogBreeds.getD 7 "" = "basenji" ∧ getDogBreeds.getD 120 "" = "basenji" ∧
    (∀ path : String,
      (ModelService.new Unit path).get_health_status.num_classes = 141) ∧
    (svcOneHot 7).predict () = Except.ok ("basenji", 1) ∧
    (svcOneHot 120).predict () = Except.ok ("basenji", 1) := by
  refine ⟨rfl, by decide, by decide, by decide, by decide, by decide, by decide,
    fun path => rfl, ?_, ?_⟩
  · have h := svcOneHot_predict 7 (by norm_num)
    rwa [show getDogBreeds.getD 7 "" = "basenji" by decide] at h
  · have h := svcOneHot_predict 120 (by norm_num)
    rwa [show getDogBreeds.getD 120 "" = "basenji" by decide] at h

end DogVision
namespace DogVision

/-- C3 (amended): a failed `load_model` returns false rather than raising and
never installs a new model handle (the `model` field, path and vocabulary are
unchanged); from the unloaded state it is all-or-nothing (still unloaded, same
model field); a missing file leaves the whole state untouched, and a
deserialization failure forces `is_loaded` to false.  The original claim's
"leaves the engine in the unloaded state" fails for a missing-file re-load on
an already loaded engine (see the counterexample). -/
theorem C3_failed_load_all_or_nothing {α : Type} (svc : ModelService α)
    (fsExists : Bool) (loader : Except PyExc (ModelFn α))
    (hfail : fsExists = false ∨ ∃ e, loader = Except.error e) :
    (svc.load_model fsExists loader).2 = false ∧
    (svc.load_model fsExists loader).1.model = svc.model ∧
    (svc.load_model fsExists loader).1.model_path = svc.model_path ∧
    (svc.load_model fsExists loader).1.dog_breeds = svc.dog_breeds ∧
    (fsExists = false → (svc.load_model fsExists loader).1 = svc) ∧
    (fsExists = true → (svc.load_model fsExists loader).1.is_loaded = false) ∧
    (svc.is_loaded = false →
      (svc.load_model fsExists loader).1.is_loaded = false ∧
      (svc.load_model fsExists loader).1.model = svc.model) := by
  rcases hfail with rfl | ⟨e, rfl⟩
  · simp [ModelService.load_model]
  · cases fsExists <;> simp [ModelService.load_model]

/-- C3 witness: a failed load (missing file) on a fresh service. -/
theorem C3_failed_load_all_or_nothing_witness :
    ((false : Bool) = false ∨ ∃ e, (Except.error deserializeExc : Except PyExc (ModelFn Unit)) = Except.error e) ∧
    (((ModelService.new Unit "missing.keras").load_model false (Except.error deserializeExc)).2 = false ∧
      ((ModelService.new Unit "missing.keras").load_model false (Except.error deserializeExc)).1.model = (ModelService.new Unit "missing.keras").model ∧
      ((ModelService.new Unit "missing.keras").load_model false (Except.error deserializeExc)).1.model_path = (ModelService.new Unit "missing.keras").model_path ∧
      ((ModelService.new Unit "missing.keras").load_model false (Except.error deserializeExc)).1.dog_breeds = (ModelService.new Unit "missing.keras").dog_breeds ∧
      ((false : Bool) = false → ((ModelService.new Unit "missing.keras").load_model false (Except.error deserializeExc)).1 = ModelService.new Unit "missing.keras") ∧
      ((false : Bool) = true → ((ModelService.new Unit "missing.keras").load_model false (Except.error deserializeExc)).1.is_loaded = false) ∧
      ((ModelService.new Unit "missing.keras").is_loaded = false →
        ((ModelService.new Unit "missing.keras").load_model false (Except.error deserializeExc)).1.is_loaded = false ∧
        ((ModelService.new Unit "missing.keras").load_model false (Except.error deserializeExc)).1.model = (ModelService.new Unit "missing.keras").model)) :=
  ⟨Or.inl rfl, C3_failed_load_all_or_nothing (ModelService.new Unit "missing.keras") false
    (Except.error deserializeExc) (Or.inl rfl)⟩

/-- C3 counterexample: on an engine that is already loaded, a failed load
(missing file) returns false but leaves `is_loaded = true` and the old model
installed — the engine is not "left in the unloaded state". -/
theorem C3_failed_load_counterexample :
    svcLoaded.is_loaded = true ∧
    (svcLoaded.load_model false (Except.error deserializeExc)).2 = false ∧
    (svcLoaded.load_model false (Except.error deserializeExc)).1.is_loaded = true :=
  ⟨rfl, rfl, rfl⟩

/-- C4 (amended): once loaded, the engine stays loaded under every operation
except a re-load whose file exists but whose deserialization raises: predict
calls, successful loads and missing-file failed loads all preserve
`is_loaded = true`.  The original unconditional claim fails because a failed
deserialization on re-load resets `is_loaded` (see the counterexample). -/
theorem C4_loaded_stays_loaded {α : Type} (svc : ModelService α) (ops : List (Op α))
    (hloaded : svc.is_loaded = true)
    (hops : ∀ op ∈ ops, failingDeserializeLoad op = false) :
    (ops.foldl stepOp svc).is_loaded = true := by
  induction ops generalizing svc with
  | nil => simpa using hloaded
  | cons op ops ih =>
    simp only [List.foldl_cons]
    apply ih
    · have hop := hops op (List.mem_cons_self _ _)
      cases op with
      | predictCall x => simpa [stepOp] using hloaded
      | load fsE loader =>
        cases fsE with
        | false => simpa [stepOp, ModelService.load_model] using hloaded
        | true =>
          cases loader with
          | ok m => simp [stepOp, ModelService.load_model]
          | error e => simp [failingDeserializeLoad] at hop
    · intro op' hop'
      exact hops op' (List.mem_cons_of_mem _ hop')

/-- C4 witness: a loaded service stays loaded across a predict call, a
missing-file failed load and a successful re-load. -/
theorem C4_loaded_stays_loaded_witness :
    svcLoaded.is_loaded = true ∧
    (∀ op ∈ [Op.predictCall (), Op.load false (Except.error deserializeExc),
        Op.load true (Except.ok stubModel)], failingDeserializeLoad op = false) ∧
    (([Op.predictCall (), Op.load false (Except.error deserializeExc),
        Op.load true (Except.ok stubModel)].foldl stepOp svcLoaded).is_loaded = true) := by
  refine ⟨rfl, ?_, ?_⟩
  · intro op hop
    rcases List.mem_cons.mp hop with rfl | hop
    · rfl
    rcases List.mem_cons.mp hop with rfl | hop
    · rfl
    rcases List.mem_cons.mp hop with rfl | hop
    · rfl
    cases hop
  · apply C4_loaded_stays_loaded svcLoaded _ rfl
    intro op hop
    rcases List.mem_cons.mp hop with rfl | hop
    · rfl
    rcases List.mem_cons.mp hop with rfl | hop
    · rfl
    rcases List.mem_cons.mp hop with rfl | hop
    · rfl
    cases hop

/-- C4 counterexample: from a loaded engine, one more `load_model` call whose
deserialization fails makes `is_loaded` false again — the Loaded state is not
absorbing. -/
theorem C4_loaded_stays_loaded_counterexample :
    svcLoaded.is_loaded = true ∧
    (stepOp svcLoaded (Op.load true (Except.error deserializeExc))).is_loaded = false :=
  ⟨rfl, rfl⟩

/-- C6 (amended): `get_health_status` is a total read of the state whose
`status` field is "healthy" exactly when the loaded flag is true and whose
loaded flag mirrors `is_loaded`; a fresh service reports not loaded; right
after a load call that returned true the report is loaded/healthy; and after
a load call that returned false on a service that was unloaded, the report is
not loaded / "model_not_loaded".  The original claim's unconditional "after a
failed load the flag is false" fails on an already loaded engine (see the
counterexample). -/
theorem C6_health_consistent {α : Type} (svc : ModelService α) (fsE : Bool)
    (loader : Except PyExc (ModelFn α)) (path : String) :
    (svc.get_health_status.status = "healthy" ↔ svc.get_health_status.model_loaded = true) ∧
    svc.get_health_status.model_loaded = svc.is_loaded ∧
    ((ModelService.new α path).get_health_status.model_loaded = false ∧
      (ModelService.new α path).get_health_status.status = "model_not_loaded") ∧
    ((svc.load_model fsE loader).2 = true →
      ((svc.load_model fsE loader).1.get_health_status.model_loaded = true ∧
        (svc.load_model fsE loader).1.get_health_status.status = "healthy")) ∧
    (svc.is_loaded = false → (svc.load_model fsE loader).2 = false →
      ((svc.load_model fsE loader).1.get_health_status.model_loaded = false ∧
        (svc.load_model fsE loader).1.get_health_status.status = "model_not_loaded")) := by
  refine ⟨?_, rfl, ⟨rfl, rfl⟩, ?_, ?_⟩
  · cases h : svc.is_loaded <;> simp [ModelService.get_health_status, h]
  · intro hsucc
    cases fsE with
    | false => simp [ModelService.load_model] at hsucc
    | true =>
      cases loader with
      | ok m => simp [ModelService.load_model, ModelService.get_health_status]
      | error e => simp [ModelService.load_model] at hsucc
  · intro hunl hfail
    cases fsE with
    | false =>
      simp [ModelService.load_model, ModelService.get_health_status, hunl]
    | true =>
      cases loader with
      | ok m => simp [ModelService.load_model] at hfail
      | error e => simp [ModelService.load_model, ModelService.get_health_status]

/-- C6 witness: the theorem applied to a fresh service and a successful
load environment. -/
theorem C6_health_consistent_witness :
    ((ModelService.new Unit "dog_model.keras").get_health_status.status = "healthy" ↔
      (ModelService.new Unit "dog_model.keras").get_health_status.model_loaded = true) ∧
    (ModelService.new Unit "dog_model.keras").get_health_status.model_loaded
      = (ModelService.new Unit "dog_model.keras").is_loaded ∧
    ((ModelService.new Unit "dog_model.keras").get_health_status.model_loaded = false ∧
      (ModelService.new Unit "dog_model.keras").get_health_status.status = "model_not_loaded") ∧
    (((ModelService.new Unit "dog_model.keras").load_model true (Except.ok stubModel)).2 = true →
      (((ModelService.new Unit "dog_model.keras").load_model true (Except.ok stubModel)).1.get_health_status.model_loaded = true ∧
        ((ModelService.new Unit "dog_model.keras").load_model true (Except.ok stubModel)).1.get_health_status.status = "healthy")) ∧
    ((ModelService.new Unit "dog_model.keras").is_loaded = false →
      ((ModelService.new Unit "dog_model.keras").load_model true (Except.ok stubModel)).2 = false →
      (((ModelService.new Unit "dog_model.keras").load_model true (Except.ok stubModel)).1.get_health_status.model_loaded = false ∧
        ((ModelService.new Unit "dog_model.keras").load_model true (Except.ok stubModel)).1.get_health_status.status = "model_not_loaded")) :=
  C6_health_consistent (ModelService.new Unit "dog_model.keras") true (Except.ok stubModel)
    "dog_model.keras"

/-- C6 counterexample: after a failed (missing-file) load on an already
loaded engine, the health report still says loaded/"healthy", contradicting
the claim that after a failed load the flag is false and the status is
"model_not_loaded". -/
theorem C6_health_counterexample :
    (svcLoaded.load_model false (Except.error deserializeExc)).2 = false ∧
    (svcLoaded.load_model false (Except.error deserializeExc)).1.get_health_status.model_loaded = true ∧
    (svcLoaded.load_model false (Except.error deserializeExc)).1.get_health_status.status = "healthy" :=
  ⟨rfl, rfl, rfl⟩

end DogVision
namespace DogVision

/-- C7: `validate_image_format` is a total boolean function of its input: it
never lets an exception escape, returns false exactly when the PIL open or
verify step fails (empty, truncated or non-image payloads under the PIL
oracle), and true exactly when both succeed (well-formed JPEG/PNG payloads
under the PIL oracle). -/
theorem C7_validate_total (pilOpen : List Nat → Except PyExc PILImage)
    (verify : PILImage → Except PyExc Unit) (bytes : List Nat) :
    (validate_image_format pilOpen verify bytes = true ∨
      validate_image_format pilOpen verify bytes = false) ∧
    (∀ e, pilOpen bytes = Except.error e →
      validate_image_format pilOpen verify bytes = false) ∧
    (∀ img, pilOpen bytes = Except.ok img → ∀ e, verify img = Except.error e →
      validate_image_format pilOpen verify bytes = false) ∧
    (∀ img, pilOpen bytes = Except.ok img → verify img = Except.ok () →
      validate_image_format pilOpen verify bytes = true) := by
  refine ⟨?_, ?_, ?_, ?_⟩
  · cases validate_image_format pilOpen verify bytes
    · exact Or.inr rfl
    · exact Or.inl rfl
  · intro e he
    simp [validate_image_format, he]
  · intro img himg e he
    simp [validate_image_format, himg, he]
  · intro img himg hv
    simp [validate_image_format, himg, hv]

/-- C7 witness: with a magic-number stub decoder, `validate_image_format`
rejects the empty byte sequence and accepts a JPEG payload. -/
theorem C7_validate_total_witness :
    pilOpenStub [] = (Except.error (PyExc.mk ExcType.valueError "cannot identify image file") :
      Except PyExc PILImage) ∧
    validate_image_format pilOpenStub verifyOk [] = false ∧
    pilOpenStub jpegBytes = Except.ok imgRed ∧
    verifyOk imgRed = Except.ok () ∧
    validate_image_format pilOpenStub verifyOk jpegBytes = true :=
  ⟨by decide,
    (C7_validate_total pilOpenStub verifyOk []).2.1
      (PyExc.mk ExcType.valueError "cannot identify image file") (by decide),
    by decide, rfl,
    (C7_validate_total pilOpenStub verifyOk jpegBytes).2.2.2 imgRed (by decide) rfl⟩

theorem getD_all {β : Type} {P : β → Prop} {l : List β} (hl : ∀ u ∈ l, P u)
    {d : β} (hd : P d) (n : Nat) : P (l.getD n d) := by
  by_cases h : n < l.length
  · rw [List.getD_eq_getElem _ _ h]
    exact hl _ (List.getElem_mem _)
  · rw [List.getD_eq_default _ _ (le_of_not_lt h)]
    exact hd

theorem getD_map_default {β γ : Type} (g : β → γ) (dβ : β) (dγ : γ) (hg : g dβ = dγ)
    (l : List β) (i : Nat) : (l.map g).getD i dγ = g (l.getD i dβ) := by
  induction l generalizing i with
  | nil => simp [hg]
  | cons x xs ih =>
    cases i with
    | zero => rfl
    | succ k => simpa using ih k

theorem tensorAt_convert (arr : List (List (List Nat))) (i j c : Nat) :
    tensorAt (convertImageDtype arr) i j c
      = (((arr.getD i []).getD j []).getD c 0 : ℚ) / 255 := by
  unfold tensorAt convertImageDtype
  rw [getD_map_default
    (fun (row : List (List Nat)) => row.map fun (px : List Nat) =>
      px.map fun (v : Nat) => (v : ℚ) / 255) [] [] rfl arr i]
  rw [getD_map_default
    (fun (px : List Nat) => px.map fun (v : Nat) => (v : ℚ) / 255) [] [] rfl _ j]
  rw [getD_map_default (fun (v : Nat) => (v : ℚ) / 255) 0 0 (by norm_num) _ c]

theorem tensorAt_convert_bound {arr : List (List (List Nat))} (hb : allLE255 arr)
    (i j c : Nat) :
    0 ≤ tensorAt (convertImageDtype arr) i j c ∧
      tensorAt (convertImageDtype arr) i j c ≤ 1 := by
  have h1 : ∀ px ∈ arr.getD i [], ∀ v ∈ px, v ≤ 255 := getD_all hb (by simp) i
  have h2 : ∀ v ∈ (arr.getD i []).getD j [], v ≤ 255 := getD_all h1 (by simp) j
  have h3 : ((arr.getD i []).getD j []).getD c 0 ≤ 255 := getD_all h2 (by norm_num) c
  rw [tensorAt_convert]
  constructor
  · positivity
  · rw [div_le_one (by norm_num)]
    exact_mod_cast h3

theorem lerpQ_unit {a b t : ℚ} (ha0 : 0 ≤ a) (ha1 : a ≤ 1) (hb0 : 0 ≤ b) (hb1 : b ≤ 1)
    (ht0 : 0 ≤ t) (ht1 : t ≤ 1) : 0 ≤ lerpQ a b t ∧ lerpQ a b t ≤ 1 := by
  unfold lerpQ
  constructor <;> nlinarith

theorem fract_unit (x : ℚ) : 0 ≤ x - (⌊x⌋ : ℚ) ∧ x - (⌊x⌋ : ℚ) ≤ 1 :=
  ⟨Int.fract_nonneg x, (Int.fract_lt_one x).le⟩

theorem bilinearAt_unit {t : List (List (List ℚ))}
    (hb : ∀ i j c, 0 ≤ tensorAt t i j c ∧ tensorAt t i j c ≤ 1)
    (inH inW outH outW i j c : Nat) :
    0 ≤ bilinearAt t inH inW outH outW i j c ∧
      bilinearAt t inH inW outH outW i j c ≤ 1 := by
  unfold bilinearAt
  have hdx := fract_unit (halfPixelSrc j inW outW)
  have hdy := fract_unit (halfPixelSrc i inH outH)
  have h00 := hb (⌊halfPixelSrc i inH outH⌋).toNat (⌊halfPixelSrc j inW outW⌋).toNat c
  have h01 := hb (⌊halfPixelSrc i inH outH⌋).toNat
    (min (inW - 1) (⌈halfPixelSrc j inW outW⌉).toNat) c
  have h10 := hb (min (inH - 1) (⌈halfPixelSrc i inH outH⌉).toNat)
    (⌊halfPixelSrc j inW outW⌋).toNat c
  have h11 := hb (min (inH - 1) (⌈halfPixelSrc i inH outH⌉).toNat)
    (min (inW - 1) (⌈halfPixelSrc j inW outW⌉).toNat) c
  have htop := lerpQ_unit h00.1 h00.2 h01.1 h01.2 hdx.1 hdx.2
  have hbot := lerpQ_unit h10.1 h10.2 h11.1 h11.2 hdx.1 hdx.2
  exact lerpQ_unit htop.1 htop.2 hbot.1 hbot.2 hdy.1 hdy.2

theorem tfResize_spec (t : List (List (List ℚ)))
    (hb : ∀ i j c, 0 ≤ tensorAt t i j c ∧ tensorAt t i j c ≤ 1)
    (inH inW outH outW : Nat) :
    (tfResize t inH inW outH outW).length = outH ∧
    ∀ row ∈ tfResize t inH inW outH outW, row.length = outW ∧
      ∀ px ∈ row, px.length = 3 ∧ ∀ v ∈ px, 0 ≤ v ∧ v ≤ 1 := by
  constructor
  · simp [tfResize]
  · intro row hrow
    simp only [tfResize, List.mem_map, List.mem_range] at hrow
    obtain ⟨i, hi, rfl⟩ := hrow
    refine ⟨by simp, ?_⟩
    intro px hpx
    simp only [List.mem_map, List.mem_range] at hpx
    obtain ⟨j, hj, rfl⟩ := hpx
    refine ⟨by simp, ?_⟩
    intro v hv
    simp only [List.mem_map, List.mem_range] at hv
    obtain ⟨c, hc, rfl⟩ := hv
    exact bilinearAt_unit hb inH inW outH outW i j c

end DogVision
namespace DogVision

theorem pixelRGB_le255 {img : PILImage} (hwf : img.WF) (i j : Nat) :
    ∀ v ∈ img.pixelRGB i j, v ≤ 255 := by
  obtain ⟨-, -, -, hdata, hpal, -⟩ := hwf
  have hdata' : ∀ row ∈ img.data, ∀ px ∈ row, ∀ v ∈ px, v ≤ 255 :=
    fun row hr px hpx v hv => ((hdata row hr).2 px hpx).2 v hv
  have h1 : ∀ px ∈ img.data.getD i [], ∀ v ∈ px, v ≤ 255 := getD_all hdata' (by simp) i
  have h2 : ∀ v ∈ (img.data.getD i []).getD j [], v ≤ 255 := getD_all h1 (by simp) j
  have hg : ((img.data.getD i []).getD j []).getD 0 0 ≤ 255 := getD_all h2 (by norm_num) 0
  have hpal' : ∀ entry ∈ img.palette, ∀ v ∈ entry, v ≤ 255 :=
    fun e he v hv => (hpal e he).2 v hv
  have h3 : ∀ v ∈ img.palette.getD (((img.data.getD i []).getD j []).getD 0 0) [0, 0, 0],
      v ≤ 255 := getD_all hpal' (by intro v hv; fin_cases hv <;> norm_num) _
  intro v hv
  unfold PILImage.pixelRGB at hv
  cases hmode : img.mode
  case RGB =>
    simp only [hmode] at hv
    exact h2 v hv
  case L =>
    simp only [hmode] at hv
    simp only [List.mem_cons, List.not_mem_nil, or_false] at hv
    rcases hv with h | h | h <;> (subst h; exact hg)
  case RGBA =>
    simp only [hmode] at hv
    exact h2 v (List.mem_of_mem_take hv)
  case P =>
    simp only [hmode] at hv
    exact h3 v hv

theorem image_allLE255 {img : PILImage} (hwf : img.WF) :
    allLE255 (if img.mode ≠ PILMode.RGB then img.convert_RGB else img).data := by
  by_cases hmode : img.mode = PILMode.RGB
  · rw [if_neg (by simpa using hmode)]
    exact fun row hr px hpx v hv => ((hwf.2.2.2.1 row hr).2 px hpx).2 v hv
  · rw [if_pos hmode]
    intro row hr px hpx v hv
    simp only [PILImage.convert_RGB, List.mem_map, List.mem_range] at hr
    obtain ⟨i, hi, rfl⟩ := hr
    simp only [List.mem_map, List.mem_range] at hpx
    obtain ⟨j, hj, rfl⟩ := hpx
    exact pixelRGB_le255 hwf i j v hv

/-- C2: for every byte payload the PIL oracle decodes into a well-formed image
of any supported mode (RGB, grayscale, RGBA, palette) and any source
resolution, `process_image_from_bytes` succeeds and yields a tensor of exactly
shape (224, 224, 3) with every element in [0, 1]. -/
theorem C2_decode_shape_and_range (pilOpen : List Nat → Except PyExc PILImage)
    (bytes : List Nat) (img : PILImage)
    (hopen : pilOpen bytes = Except.ok img) (hwf : img.WF) :
    ∃ t, process_image_from_bytes pilOpen bytes = Except.ok t ∧
      t.length = 224 ∧
      ∀ row ∈ t, row.length = 224 ∧
        ∀ px ∈ row, px.length = 3 ∧ ∀ v ∈ px, 0 ≤ v ∧ v ≤ 1 := by
  have hb : allLE255 (if img.mode ≠ PILMode.RGB then img.convert_RGB else img).data :=
    image_allLE255 hwf
  have hbound := fun i j c => tensorAt_convert_bound hb i j c
  have hspec := tfResize_spec
    (convertImageDtype (if img.mode ≠ PILMode.RGB then img.convert_RGB else img).data)
    hbound
    (convertImageDtype (if img.mode ≠ PILMode.RGB then img.convert_RGB else img).data).length
    ((convertImageDtype
      (if img.mode ≠ PILMode.RGB then img.convert_RGB else img).data).getD 0 []).length
    IMG_SIZE IMG_SIZE
  refine ⟨_, ?_, hspec.1, hspec.2⟩
  simp only [process_image_from_bytes, hopen]

end DogVision
namespace DogVision

/-- C2 witness: the theorem applied to a decoder that yields the concrete
1×1 red RGB image. -/
theorem C2_decode_shape_and_range_witness :
    ((fun _ => Except.ok imgRed) ([] : List Nat) = (Except.ok imgRed : Except PyExc PILImage)) ∧
    imgRed.WF ∧
    ∃ t, process_image_from_bytes (fun _ => Except.ok imgRed) [] = Except.ok t ∧
      t.length = 224 ∧
      ∀ row ∈ t, row.length = 224 ∧
        ∀ px ∈ row, px.length = 3 ∧ ∀ v ∈ px, 0 ≤ v ∧ v ≤ 1 :=
  ⟨rfl, by unfold PILImage.WF; decide,
    C2_decode_shape_and_range _ [] imgRed rfl (by unfold PILImage.WF; decide)⟩

end DogVision
